import Mathlib

/-
Verification development for the Escrow Settlement Engine
(backend/app: routers/escrow.py, workers/event_processor.py,
services/web3_service.py, schemas/escrow.py, models/escrow.py).

The Python code is shallowly embedded as executable Lean functions:
SQLAlchemy rows become structures, the database for one escrow becomes a
record holding the escrow row and its event rows, every db.commit() on a
success path is recorded as one snapshot in a commit list, and external
collaborators (the web3 node, custodial signing, user lookups) are passed
in as explicit data.  Python ints are Int (amounts, block numbers) or Nat
(ids, timestamps in seconds); datetime.utcnow() is a Nat parameter `now`.
-/

namespace EscrowEngine

/-- The five escrow states of models/escrow.py (EscrowState). -/
inductive EscrowState
  | awaitingFund
  | funded
  | awaitingDelivery
  | complete
  | disputed
  deriving DecidableEq, Repr

/-- The event kinds of models/escrow.py (EscrowEventType). -/
inductive EscrowEventType
  | created
  | funded
  | deliveryConfirmed
  | released
  | disputed
  | resolved
  | timeoutRefund
  deriving DecidableEq, Repr

/-- A JSON-ish scalar used in event payload dictionaries. -/
inductive PVal
  | int (n : Int)
  | str (s : String)
  | bool (b : Bool)
  | strs (l : List String)
  | null
  deriving DecidableEq, Repr

/-- One row of the escrows table (models/escrow.py, class Escrow). -/
structure Escrow where
  id : Nat
  contract_id : Nat
  buyer_id : Nat
  seller_id : Nat
  onchain_trade_id : Option Int := none
  onchain_tx_hash : Option String := none
  amount_wei : Int
  state : EscrowState := .awaitingFund
  trade_metadata : Option String := none
  dispute_reason : Option String := none
  resolution_notes : Option String := none
  confirmations : Int := 0
  is_confirmed : Bool := false
  timeout_at : Option Nat := none
  created_at : Nat := 0
  funded_at : Option Nat := none
  completed_at : Option Nat := none
  disputed_at : Option Nat := none
  deriving DecidableEq, Repr

/-- One row of the escrow_events table (models/escrow.py, class EscrowEvent). -/
structure EscrowEvent where
  escrow_id : Nat
  event_type : EscrowEventType
  payload : List (String × PVal) := []
  tx_hash : Option String := none
  block_number : Option Int := none
  block_hash : Option String := none
  log_index : Option Int := none
  is_processed : Bool := false
  processed_at : Option Nat := none
  error_message : Option String := none
  retry_count : Nat := 0
  deriving DecidableEq, Repr

/-- The stored state for one escrow: its row and its event rows, in insertion
order.  Every claim here is a per-escrow property, so the database is
restricted to the single escrow under consideration. -/
structure Db where
  escrow : Escrow
  events : List EscrowEvent
  deriving DecidableEq, Repr

/-- A transaction receipt as read from the node (status, blockNumber). -/
structure TxReceipt where
  status : Int
  blockNumber : Int
  deriving DecidableEq, Repr

/-- A transaction body as read from the node: the recipient field (named
`to` in the source, absent for contract creation) and the value field used
by verify_funding_tx. -/
structure TxData where
  toAddr : Option String
  value : Int
  deriving DecidableEq, Repr

/-- The environment a Web3Service call runs in: configuration
(services/web3_service.py, Web3Service.__init__) together with the chain
data and custodial submission outcomes the service would observe.
`checksum` stands for Web3.to_checksum_address, abstracted to an arbitrary
normalization function; `get_receipt`/`get_tx` stand for the node reads,
returning none when the lookup raises TransactionNotFound. -/
structure Web3Env where
  contract_address : Option String := none
  admin_account : Bool := false
  confirmations_required : Int := 3
  current_block : Int := 0
  checksum : String → String := id
  get_receipt : String → Option TxReceipt := fun _ => none
  get_tx : String → Option TxData := fun _ => none
  custodial_create_ok : Bool := false
  custodial_create_res : String := ""
  custodial_confirm_ok : Bool := false
  custodial_confirm_res : String := ""
  custodial_resolve_ok : Bool := false
  custodial_resolve_res : String := ""

/-- Outcome of verify_funding_tx: the Python function returns the pair
(is_valid, receipt_or_error_message). -/
inductive VerifyOut
  | valid (receipt : TxReceipt)
  | invalid (reason : String)
  deriving DecidableEq, Repr

/-- Web3Service.verify_funding_tx (services/web3_service.py lines 125-173).
Checks, in source order: receipt present, receipt.status = 1, confirmations
(current block minus receipt block) at least the configured threshold, then
reads the transaction; if an expected recipient is configured and the
transaction has a recipient, the checksum-normalized recipients must match
(the check `if tx[to] and ...` is skipped when the transaction has no
recipient); finally the value must equal the expected amount exactly. -/
def verify_funding_tx (env : Web3Env) (tx_hash : String)
    (expected_amount_wei : Int) (expected_to : Option String) : VerifyOut :=
  match env.get_receipt tx_hash with
  | none => .invalid "Transaction not found"
  | some receipt =>
    if receipt.status ≠ 1 then .invalid "Transaction failed"
    else if env.current_block - receipt.blockNumber < env.confirmations_required then
      .invalid "Insufficient confirmations"
    else
      match env.get_tx tx_hash with
      | none => .invalid "Transaction not found"
      | some tx =>
        let recipient_ok : Bool :=
          match expected_to with
          | none => true
          | some a =>
            match tx.toAddr with
            | some t => env.checksum t == env.checksum a
            | none => true
        if ¬ recipient_ok then .invalid "Transaction recipient mismatch"
        else if tx.value ≠ expected_amount_wei then .invalid "Amount mismatch"
        else .valid receipt

/-- Whether a VerifyOut is an acceptance. -/
def VerifyOut.accepted : VerifyOut → Prop
  | .valid _ => True
  | .invalid _ => False

instance : DecidablePred VerifyOut.accepted := fun v => by
  cases v <;> simp [VerifyOut.accepted] <;> infer_instance

/-- The acceptance condition exactly as the spec words it (section 4.2):
receipt exists and denotes success; confirmations at least the threshold;
the transaction recipient equals the expected address after checksum
normalization; the value equals the expected amount exactly.  Written from
the spec, to be compared against verify_funding_tx. -/
def specVerifyAccepts (env : Web3Env) (tx_hash : String)
    (expected_amount_wei : Int) (expected_to : String) : Prop :=
  (∃ r, env.get_receipt tx_hash = some r ∧ r.status = 1 ∧
    env.confirmations_required ≤ env.current_block - r.blockNumber) ∧
  (∃ t, env.get_tx tx_hash = some t ∧
    (∃ a, t.toAddr = some a ∧ env.checksum a = env.checksum expected_to) ∧
    t.value = expected_amount_wei)

/-- The authenticated caller (id and role), as used by the router guards. -/
structure User where
  id : Nat
  role : String := "user"
  deriving DecidableEq, Repr

/-- An HTTPException raised by a router: status code and detail string. -/
structure ApiError where
  status : Nat
  detail : String
  deriving DecidableEq, Repr

/-- Request body of POST /create (schemas/escrow.py, EscrowCreate). -/
structure EscrowCreateReq where
  contract_id : Nat
  buyer_id : Nat
  seller_id : Nat
  expected_amount_wei : Int
  create_on_chain : Bool := false
  metadata : Option String := none
  deriving DecidableEq, Repr

/-- Pydantic validation of EscrowCreate: Field(gt=0) together with the
validate_amount validator (amount must be positive and at most
1000 * 10^18 wei). -/
def EscrowCreateReq.validate (r : EscrowCreateReq) : Except String EscrowCreateReq :=
  if r.expected_amount_wei ≤ 0 then .error "Amount must be greater than 0"
  else if r.expected_amount_wei > 1000 * 10 ^ 18 then .error "Amount exceeds maximum limit"
  else .ok r

/-- Request body of POST /fund (schemas/escrow.py, EscrowFund). -/
structure EscrowFundReq where
  escrow_id : Nat
  tx_hash : Option String := none
  use_custodial : Bool := false
  deriving DecidableEq, Repr

/-- Pydantic validation of EscrowFund (validate_tx_hash: a supplied hash
must start with 0x and be 66 characters long). -/
def EscrowFundReq.validate (r : EscrowFundReq) : Except String EscrowFundReq :=
  match r.tx_hash with
  | none => .ok r
  | some h =>
    if ¬ (h.data.take 2 == ['0', 'x']) then .error "Transaction hash must start with 0x"
    else if h.length ≠ 66 then .error "Transaction hash must be 66 characters long"
    else .ok r

/-- Request body of POST /confirm-delivery (EscrowConfirmDelivery). -/
structure EscrowConfirmDeliveryReq where
  escrow_id : Nat
  use_custodial : Bool := false
  deriving DecidableEq, Repr

/-- Request body of POST /raise-dispute (EscrowRaiseDispute). -/
structure EscrowRaiseDisputeReq where
  escrow_id : Nat
  reason : String
  evidence_urls : List String := []
  deriving DecidableEq, Repr

/-- Pydantic validation of EscrowRaiseDispute (reason length bounds). -/
def EscrowRaiseDisputeReq.validate (r : EscrowRaiseDisputeReq) : Except String EscrowRaiseDisputeReq :=
  if r.reason.length < 10 then .error "reason too short"
  else if r.reason.length > 1000 then .error "reason too long"
  else .ok r

/-- Request body of POST /resolve (EscrowResolveDispute).
`payout_amount_provided` records whether the JSON body supplied the
payout_amount_wei field at all: pydantic only runs a validator without
always=True on fields that were supplied, so an omitted field bypasses
validate_payout_amount and the default none is used directly. -/
structure EscrowResolveDisputeReq where
  escrow_id : Nat
  outcome : String
  payout_address : Option String := none
  payout_amount_provided : Bool := false
  payout_amount_wei : Option Int := none
  resolution_notes : String
  deriving DecidableEq, Repr

/-- Pydantic validation of EscrowResolveDispute: Field(min_length=10) on
resolution_notes, validate_outcome, and validate_payout_amount.  The
payout-amount validator runs only when the field was supplied (no
always=True on the validator), mirroring pydantic semantics. -/
def EscrowResolveDisputeReq.validate (r : EscrowResolveDisputeReq) :
    Except String EscrowResolveDisputeReq :=
  if ¬ (r.outcome = "refund" ∨ r.outcome = "payout" ∨ r.outcome = "partial") then
    .error "Outcome must be refund, payout, or partial"
  else if r.payout_amount_provided ∧
      (r.outcome = "payout" ∨ r.outcome = "partial") ∧ r.payout_amount_wei = none then
    .error "Payout amount required for payout or partial outcomes"
  else if r.payout_amount_provided &&
      (match r.payout_amount_wei with | some v => v != 0 && decide (v < 0) | none => false) then
    .error "Payout amount cannot be negative"
  else if r.resolution_notes.length < 10 then .error "resolution_notes too short"
  else .ok r

/-- Response of POST /create (EscrowCreateResponse). -/
structure EscrowCreateResponse where
  escrow_id : Nat
  onchain_trade_id : Option Int := none
  fund_address : Option String := none
  status : String
  tx_hash : Option String := none
  deriving DecidableEq, Repr

/-- Response of POST /fund (EscrowFundResponse). -/
structure EscrowFundResponse where
  escrow_id : Nat
  status : String
  tx_receipt : Option TxReceipt := none
  confirmations : Int
  is_confirmed : Bool
  deriving DecidableEq, Repr

/-- Response of the action endpoints (EscrowActionResponse). -/
structure EscrowActionResponse where
  escrow_id : Nat
  action : String
  status : String
  tx_hash : Option String := none
  message : String
  deriving DecidableEq, Repr

/-- Result of one router operation on an existing escrow: the HTTP outcome,
the final database state, and the committed snapshots in order (one entry
per db.commit() reached on the executed path). -/
structure OpResult (α : Type) where
  res : Except ApiError α
  db : Db
  commits : List Db
  deriving Repr

/-- routers/escrow.py, create_escrow_event (lines 53-77): builds one
EscrowEvent row marked processed and commits it. -/
def create_escrow_event (escrow_id : Nat) (event_type : EscrowEventType)
    (payload : List (String × PVal)) (tx_hash : Option String)
    (block_number : Option Int) (block_hash : Option String)
    (log_index : Option Int) (now : Nat) : EscrowEvent :=
  { escrow_id := escrow_id
    event_type := event_type
    payload := payload
    tx_hash := tx_hash
    block_number := block_number
    block_hash := block_hash
    log_index := log_index
    is_processed := true
    processed_at := some now }

/-- routers/escrow.py, check_escrow_access (lines 41-50): admins always
pass; otherwise the caller must be the buyer or the seller. -/
def check_escrow_access (escrow : Escrow) (user : User) : Bool :=
  user.role == "admin" || escrow.buyer_id == user.id || escrow.seller_id == user.id

/-- PVal for an optional string (Python None becomes JSON null). -/
def PVal.ofOptStr : Option String → PVal
  | some s => .str s
  | none => .null

/-- routers/escrow.py, fund_escrow (lines 194-299).  Guards in source
order: escrow lookup, access check, state must be AWAITING_FUND, caller
must be the buyer.  Then one of three branches: the custodial branch (when
use_custodial is set and an admin account is configured) builds its
metadata JSON from `escrow.metadata` — on this SQLAlchemy model that
attribute is the declarative MetaData object, not the trade_metadata
column, so the dict splat over it raises TypeError, the inner
HTTPException/TypeError is swallowed by the enclosing `except Exception`,
and the branch always returns HTTP 500; the tx_hash branch verifies the
supplied transaction via verify_funding_tx against the configured contract
address; otherwise HTTP 400.  On success the state change is committed
first (state FUNDED, funded_at, is_confirmed True, confirmations 3) and
the funded event is committed second, by create_escrow_event. -/
def fund_escrow (env : Web3Env) (user : User) (req : EscrowFundReq)
    (now : Nat) (db : Db) : OpResult EscrowFundResponse :=
  let escrow := db.escrow
  if escrow.id ≠ req.escrow_id then
    ⟨.error ⟨404, "Escrow not found"⟩, db, []⟩
  else if ¬ check_escrow_access escrow user then
    ⟨.error ⟨403, "Access denied to this escrow"⟩, db, []⟩
  else if escrow.state ≠ .awaitingFund then
    ⟨.error ⟨400, "Escrow is not awaiting funding"⟩, db, []⟩
  else if escrow.buyer_id ≠ user.id then
    ⟨.error ⟨403, "Only buyer can fund escrow"⟩, db, []⟩
  else if req.use_custodial && env.admin_account then
    ⟨.error ⟨500, "Custodial funding failed"⟩, db, []⟩
  else
    match req.tx_hash with
    | some h =>
      match verify_funding_tx env h escrow.amount_wei env.contract_address with
      | .invalid reason =>
        ⟨.error ⟨400, "Transaction verification failed: " ++ reason⟩, db, []⟩
      | .valid receipt =>
        let e1 := { escrow with
          onchain_tx_hash := some h
          state := .funded
          funded_at := some now
          is_confirmed := true
          confirmations := 3 }
        let db1 : Db := { db with escrow := e1 }
        let ev := create_escrow_event e1.id .funded
          [("tx_hash", .ofOptStr e1.onchain_tx_hash),
           ("custodial", .bool req.use_custodial),
           ("amount_wei", .int e1.amount_wei)]
          e1.onchain_tx_hash none none none now
        let db2 : Db := { db1 with events := db1.events ++ [ev] }
        ⟨.ok { escrow_id := e1.id, status := "funded", tx_receipt := some receipt,
               confirmations := e1.confirmations, is_confirmed := e1.is_confirmed },
         db2, [db1, db2]⟩
    | none =>
      ⟨.error ⟨400, "Either tx_hash or use_custodial must be provided"⟩, db, []⟩

/-- routers/escrow.py, confirm_delivery (lines 328-379).  Guards: lookup,
access, state must be FUNDED.  The optional custodial call only supplies a
tx hash when it succeeds (its failure is merely logged).  The transition
to COMPLETE is committed first, the delivery_confirmed event second. -/
def confirm_delivery (env : Web3Env) (user : User) (escrow_id : Nat)
    (req : EscrowConfirmDeliveryReq) (now : Nat) (db : Db) :
    OpResult EscrowActionResponse :=
  let escrow := db.escrow
  if escrow.id ≠ escrow_id then
    ⟨.error ⟨404, "Escrow not found"⟩, db, []⟩
  else if ¬ check_escrow_access escrow user then
    ⟨.error ⟨403, "Access denied to this escrow"⟩, db, []⟩
  else if escrow.state ≠ .funded then
    ⟨.error ⟨400, "Cannot confirm delivery for escrow in state"⟩, db, []⟩
  else
    let tx_hash : Option String :=
      if req.use_custodial && escrow.onchain_trade_id.isSome
          && env.custodial_confirm_ok then
        some env.custodial_confirm_res
      else none
    let e1 := { escrow with state := .complete, completed_at := some now }
    let db1 : Db := { db with escrow := e1 }
    let ev := create_escrow_event e1.id .deliveryConfirmed
      [("confirmed_by", .int user.id),
       ("custodial", .bool req.use_custodial),
       ("tx_hash", .ofOptStr tx_hash)]
      tx_hash none none none now
    let db2 : Db := { db1 with events := db1.events ++ [ev] }
    ⟨.ok { escrow_id := e1.id, action := "confirm_delivery", status := "completed",
           tx_hash := tx_hash, message := "Delivery confirmed successfully" },
     db2, [db1, db2]⟩

/-- routers/escrow.py, raise_dispute (lines 382-422).  Guards: lookup,
access, state must be FUNDED.  Sets DISPUTED, dispute_reason and
disputed_at (first commit), then the disputed event (second commit). -/
def raise_dispute (user : User) (escrow_id : Nat) (req : EscrowRaiseDisputeReq)
    (now : Nat) (db : Db) : OpResult EscrowActionResponse :=
  let escrow := db.escrow
  if escrow.id ≠ escrow_id then
    ⟨.error ⟨404, "Escrow not found"⟩, db, []⟩
  else if ¬ check_escrow_access escrow user then
    ⟨.error ⟨403, "Access denied to this escrow"⟩, db, []⟩
  else if escrow.state ≠ .funded then
    ⟨.error ⟨400, "Cannot raise dispute for escrow in state"⟩, db, []⟩
  else
    let e1 := { escrow with
      state := .disputed
      dispute_reason := some req.reason
      disputed_at := some now }
    let db1 : Db := { db with escrow := e1 }
    let ev := create_escrow_event e1.id .disputed
      [("raised_by", .int user.id),
       ("reason", .str req.reason),
       ("evidence_urls", .strs req.evidence_urls)]
      none none none none now
    let db2 : Db := { db1 with events := db1.events ++ [ev] }
    ⟨.ok { escrow_id := e1.id, action := "raise_dispute", status := "disputed",
           message := "Dispute raised successfully" },
     db2, [db1, db2]⟩

/-- routers/escrow.py, resolve_dispute (lines 425-511).  The
get_current_admin_user dependency rejects non-admin callers; the state
must be DISPUTED.  The outcome decides recipient and settlement amount:
refund pays the buyer the full escrow amount, payout pays the seller the
full amount, partial uses `payout_amount_wei or 0` and picks the buyer
exactly when a payout_address was supplied.  The recipient user must
exist (userExists).  An on-chain settlement is attempted only when an
on-chain trade id is linked, and its failure only loses the tx hash.
The transition to COMPLETE plus resolution_notes is committed first, the
resolved event second. -/
def resolve_dispute (env : Web3Env) (user : User) (escrow_id : Nat)
    (req : EscrowResolveDisputeReq) (userExists : Nat → Bool) (now : Nat)
    (db : Db) : OpResult EscrowActionResponse :=
  let escrow := db.escrow
  if user.role ≠ "admin" then
    ⟨.error ⟨403, "Admin access required"⟩, db, []⟩
  else if escrow.id ≠ escrow_id then
    ⟨.error ⟨404, "Escrow not found"⟩, db, []⟩
  else if escrow.state ≠ .disputed then
    ⟨.error ⟨400, "Cannot resolve dispute for escrow in state"⟩, db, []⟩
  else
    let branch : Except ApiError (Nat × Int) :=
      if req.outcome = "refund" then .ok (escrow.buyer_id, escrow.amount_wei)
      else if req.outcome = "payout" then .ok (escrow.seller_id, escrow.amount_wei)
      else if req.outcome = "partial" then
        .ok (if req.payout_address.isSome then escrow.buyer_id else escrow.seller_id,
             match req.payout_amount_wei with
             | some v => if v = 0 then 0 else v
             | none => 0)
      else .error ⟨400, "Invalid outcome"⟩
    match branch with
    | .error e => ⟨.error e, db, []⟩
    | .ok (recipient_id, amount_wei) =>
      if ¬ userExists recipient_id then
        ⟨.error ⟨404, "Recipient not found"⟩, db, []⟩
      else
        let tx_hash : Option String :=
          if escrow.onchain_trade_id.isSome && env.custodial_resolve_ok then
            some env.custodial_resolve_res
          else none
        let e1 := { escrow with
          state := .complete
          resolution_notes := some req.resolution_notes
          completed_at := some now }
        let db1 : Db := { db with escrow := e1 }
        let ev := create_escrow_event e1.id .resolved
          [("resolved_by", .int user.id),
           ("outcome", .str req.outcome),
           ("recipient_id", .int recipient_id),
           ("amount_wei", .int amount_wei),
           ("resolution_notes", .str req.resolution_notes),
           ("tx_hash", .ofOptStr tx_hash)]
          tx_hash none none none now
        let db2 : Db := { db1 with events := db1.events ++ [ev] }
        ⟨.ok { escrow_id := e1.id, action := "resolve_dispute", status := "resolved",
               tx_hash := tx_hash, message := "Dispute resolved" },
         db2, [db1, db2]⟩

/-- One row of the contracts table, restricted to the fields create_escrow
reads (id, buyer_id, seller_id). -/
structure ContractRec where
  id : Nat
  buyer_id : Nat
  seller_id : Nat
  deriving DecidableEq, Repr

/-- Result of POST /create: the HTTP outcome, the database created for the
new escrow when the call got that far, and the committed snapshots. -/
structure CreateResult where
  res : Except ApiError EscrowCreateResponse
  db : Option Db
  commits : List Db
  deriving Repr

/-- routers/escrow.py, create_escrow (lines 80-191).  Guards in source
order: the contract must exist, the caller must be a party to it, the
buyer and seller users must exist, and no escrow may already exist for the
contract.  The new escrow starts in AWAITING_FUND with
timeout_at = now + 30 days (2592000 seconds) and is committed; the created
event is committed second.  When create_on_chain is set and an admin
account is configured, a successful custodial submission advances the
state to FUNDED (third commit) and appends a funded event (fourth commit);
a failed submission is only logged. -/
def create_escrow (env : Web3Env) (user : User) (req : EscrowCreateReq)
    (contract : Option ContractRec) (userExists : Nat → Bool)
    (existing_escrow : Bool) (newId : Nat) (now : Nat) : CreateResult :=
  match contract with
  | none => ⟨.error ⟨404, "Contract not found"⟩, none, []⟩
  | some c =>
    if c.buyer_id ≠ user.id ∧ c.seller_id ≠ user.id then
      ⟨.error ⟨403, "Access denied to this contract"⟩, none, []⟩
    else if ¬ (userExists req.buyer_id ∧ userExists req.seller_id) then
      ⟨.error ⟨404, "Buyer or seller not found"⟩, none, []⟩
    else if existing_escrow then
      ⟨.error ⟨400, "Escrow already exists for this contract"⟩, none, []⟩
    else
      let escrow : Escrow := {
        id := newId
        contract_id := req.contract_id
        buyer_id := req.buyer_id
        seller_id := req.seller_id
        amount_wei := req.expected_amount_wei
        state := .awaitingFund
        trade_metadata := req.metadata
        timeout_at := some (now + 30 * 24 * 60 * 60)
        created_at := now }
      let db1 : Db := ⟨escrow, []⟩
      let ev := create_escrow_event newId .created
        [("contract_id", .int req.contract_id),
         ("expected_amount_wei", .int req.expected_amount_wei),
         ("create_on_chain", .bool req.create_on_chain)]
        none none none none now
      let db2 : Db := { db1 with events := db1.events ++ [ev] }
      let response : EscrowCreateResponse :=
        { escrow_id := newId, status := "awaiting_fund",
          fund_address := env.contract_address }
      if req.create_on_chain && env.admin_account then
        if env.custodial_create_ok then
          let e3 := { escrow with
            onchain_tx_hash := some env.custodial_create_res
            state := .funded
            funded_at := some now }
          let db3 : Db := { db2 with escrow := e3 }
          let fundedEv := create_escrow_event newId .funded
            [("tx_hash", .str env.custodial_create_res),
             ("custodial", .bool true)]
            none none none none now
          let db4 : Db := { db3 with events := db3.events ++ [fundedEv] }
          let response2 := { response with
            tx_hash := some env.custodial_create_res
            status := "funded" }
          ⟨.ok response2, some db4, [db1, db2, db3, db4]⟩
        else
          ⟨.ok response, some db2, [db1, db2]⟩
      else
        ⟨.ok response, some db2, [db1, db2]⟩

/-- Decoded arguments of one contract log entry, covering every key the
handlers in workers/event_processor.py read.  `metaEscrowId` is the result
of json-decoding the embedded metadata and reading its escrow_id key
(none when the metadata is absent, unparsable or lacks the key); the JSON
decoding itself is abstracted to that result. -/
structure LedgerEventArgs where
  tradeId : Int
  buyerAddr : String := ""
  sellerAddr : String := ""
  amount : Int := 0
  metadata : Option String := none
  metaEscrowId : Option Nat := none
  payer : String := ""
  confirmer : String := ""
  toAddr : String := ""
  fee : Int := 0
  byAddr : String := ""
  reason : String := ""
  resolution : String := ""
  deriving DecidableEq, Repr

/-- One event dict as returned by Web3Service.get_contract_events: the
event name, decoded args, and ledger coordinates. -/
structure LedgerEvent where
  name : String
  args : LedgerEventArgs
  transactionHash : String
  blockNumber : Int
  blockHash : String
  logIndex : Int
  deriving DecidableEq, Repr

/-- workers/event_processor.py, _create_event_record (lines 147-171):
the event row every handler appends, carrying the ledger coordinates and
marked processed. -/
def create_event_record (escrow_id : Nat) (event_type : EscrowEventType)
    (payload : List (String × PVal)) (ev : LedgerEvent) (now : Nat) : EscrowEvent :=
  { escrow_id := escrow_id
    event_type := event_type
    payload := payload
    tx_hash := some ev.transactionHash
    block_number := some ev.blockNumber
    block_hash := some ev.blockHash
    log_index := some ev.logIndex
    is_processed := true
    processed_at := some now }

/-- _find_escrow_by_trade_id (lines 143-145) on the single-escrow store:
the escrow is found exactly when its linked on-chain trade id matches. -/
def find_escrow_by_trade_id (db : Db) (trade_id : Int) : Option Escrow :=
  if db.escrow.onchain_trade_id = some trade_id then some db.escrow else none

/-- _handle_escrow_created (lines 173-214): resolve the escrow by the
escrow_id decoded from the event metadata; when found, link the trade id
and tx hash and append a created record; otherwise only log. -/
def handle_escrow_created (db : Db) (ev : LedgerEvent) (now : Nat) : Db :=
  let found : Option Escrow :=
    match ev.args.metaEscrowId with
    | some eid => if db.escrow.id = eid then some db.escrow else none
    | none => none
  match found with
  | none => db
  | some esc =>
    let e1 := { esc with
      onchain_trade_id := some ev.args.tradeId
      onchain_tx_hash := some ev.transactionHash }
    { escrow := e1
      events := db.events ++ [create_event_record e1.id .created
        [("trade_id", .int ev.args.tradeId),
         ("buyer_address", .str ev.args.buyerAddr),
         ("seller_address", .str ev.args.sellerAddr),
         ("amount", .int ev.args.amount),
         ("metadata", .str (ev.args.metadata.getD "{}"))] ev now] }

/-- _handle_funded (lines 216-246): when the escrow is found, transition
AWAITING_FUND to FUNDED (setting funded_at, the tx hash, is_confirmed and
confirmations = 3); any other state is left unchanged; in both cases a
funded record is appended. -/
def handle_funded (db : Db) (ev : LedgerEvent) (now : Nat) : Db :=
  match find_escrow_by_trade_id db ev.args.tradeId with
  | none => db
  | some esc =>
    let e1 :=
      if esc.state = .awaitingFund then
        { esc with
          state := .funded
          funded_at := some now
          onchain_tx_hash := some ev.transactionHash
          is_confirmed := true
          confirmations := 3 }
      else esc
    { escrow := e1
      events := db.events ++ [create_event_record e1.id .funded
        [("trade_id", .int ev.args.tradeId),
         ("payer", .str ev.args.payer),
         ("amount", .int ev.args.amount)] ev now] }

/-- _handle_delivery_confirmed (lines 248-273): when the escrow is found
and its state is FUNDED or AWAITING_DELIVERY, transition to COMPLETE; a
delivery_confirmed record is appended whenever the escrow is found. -/
def handle_delivery_confirmed (db : Db) (ev : LedgerEvent) (now : Nat) : Db :=
  match find_escrow_by_trade_id db ev.args.tradeId with
  | none => db
  | some esc =>
    let e1 :=
      if esc.state = .funded ∨ esc.state = .awaitingDelivery then
        { esc with state := .complete, completed_at := some now }
      else esc
    { escrow := e1
      events := db.events ++ [create_event_record e1.id .deliveryConfirmed
        [("trade_id", .int ev.args.tradeId),
         ("confirmer", .str ev.args.confirmer)] ev now] }

/-- _handle_released (lines 275-299): no state change, only a released
record when the escrow is found. -/
def handle_released (db : Db) (ev : LedgerEvent) (now : Nat) : Db :=
  match find_escrow_by_trade_id db ev.args.tradeId with
  | none => db
  | some esc =>
    { escrow := esc
      events := db.events ++ [create_event_record esc.id .released
        [("trade_id", .int ev.args.tradeId),
         ("to_address", .str ev.args.toAddr),
         ("amount", .int ev.args.amount),
         ("fee", .int ev.args.fee)] ev now] }

/-- _handle_disputed (lines 301-330): when found and FUNDED, transition to
DISPUTED and fill dispute_reason when the event carries a nonempty reason
and the stored reason is falsy (absent or empty). -/
def handle_disputed (db : Db) (ev : LedgerEvent) (now : Nat) : Db :=
  match find_escrow_by_trade_id db ev.args.tradeId with
  | none => db
  | some esc =>
    let e1 :=
      if esc.state = .funded then
        { esc with
          state := .disputed
          disputed_at := some now
          dispute_reason :=
            if ev.args.reason ≠ "" ∧ (esc.dispute_reason.getD "") = "" then
              some ev.args.reason
            else esc.dispute_reason }
      else esc
    { escrow := e1
      events := db.events ++ [create_event_record e1.id .disputed
        [("trade_id", .int ev.args.tradeId),
         ("by_address", .str ev.args.byAddr),
         ("reason", .str ev.args.reason)] ev now] }

/-- _handle_resolved (lines 332-363): when found and DISPUTED, transition
to COMPLETE and fill resolution_notes under the same falsy guard. -/
def handle_resolved (db : Db) (ev : LedgerEvent) (now : Nat) : Db :=
  match find_escrow_by_trade_id db ev.args.tradeId with
  | none => db
  | some esc =>
    let e1 :=
      if esc.state = .disputed then
        { esc with
          state := .complete
          completed_at := some now
          resolution_notes :=
            if ev.args.resolution ≠ "" ∧ (esc.resolution_notes.getD "") = "" then
              some ev.args.resolution
            else esc.resolution_notes }
      else esc
    { escrow := e1
      events := db.events ++ [create_event_record e1.id .resolved
        [("trade_id", .int ev.args.tradeId),
         ("to_address", .str ev.args.toAddr),
         ("amount", .int ev.args.amount),
         ("resolution", .str ev.args.resolution)] ev now] }

/-- _handle_timeout_refund (lines 365-392): when found and FUNDED,
transition to COMPLETE; a timeout_refund record is appended. -/
def handle_timeout_refund (db : Db) (ev : LedgerEvent) (now : Nat) : Db :=
  match find_escrow_by_trade_id db ev.args.tradeId with
  | none => db
  | some esc =>
    let e1 :=
      if esc.state = .funded then
        { esc with state := .complete, completed_at := some now }
      else esc
    { escrow := e1
      events := db.events ++ [create_event_record e1.id .timeoutRefund
        [("trade_id", .int ev.args.tradeId),
         ("buyer_address", .str ev.args.buyerAddr),
         ("amount", .int ev.args.amount)] ev now] }

/-- Whether an event row with the idempotency key of this ledger event
(transaction hash, log index) already exists. -/
def hasKey (db : Db) (ev : LedgerEvent) : Bool :=
  db.events.any fun e =>
    e.tx_hash == some ev.transactionHash && e.log_index == some ev.logIndex

/-- _process_single_event (lines 106-141): skip when an event row with the
same (tx_hash, log_index) already exists; otherwise dispatch on the event
name; unknown names are only logged. -/
def process_single_event (db : Db) (ev : LedgerEvent) (now : Nat) : Db :=
  if hasKey db ev then db
  else if ev.name = "EscrowCreated" then handle_escrow_created db ev now
  else if ev.name = "Funded" then handle_funded db ev now
  else if ev.name = "DeliveryConfirmed" then handle_delivery_confirmed db ev now
  else if ev.name = "Released" then handle_released db ev now
  else if ev.name = "Disputed" then handle_disputed db ev now
  else if ev.name = "Resolved" then handle_resolved db ev now
  else if ev.name = "TimeoutRefund" then handle_timeout_refund db ev now
  else db

/-- The transition table of spec section 4.3 as an edge relation:
AWAITING_FUND -fund-> FUNDED, FUNDED -confirm/timeout-> COMPLETE,
FUNDED -dispute-> DISPUTED, DISPUTED -resolve-> COMPLETE. -/
def tableEdge : EscrowState → EscrowState → Bool
  | .awaitingFund, .funded => true
  | .funded, .complete => true
  | .funded, .disputed => true
  | .disputed, .complete => true
  | _, _ => false

/-- States reachable from AWAITING_FUND along the transition table. -/
inductive TableReachable : EscrowState → Prop
  | init : TableReachable .awaitingFund
  | step {s t : EscrowState} : TableReachable s → tableEdge s t = true → TableReachable t

/-- One escrow-mutating operation of the system: an API call (with its
environment, caller and request) or the Event Reconciler processing one
ledger event. -/
inductive Op
  | fund (env : Web3Env) (user : User) (req : EscrowFundReq) (now : Nat)
  | confirm (env : Web3Env) (user : User) (eid : Nat) (req : EscrowConfirmDeliveryReq) (now : Nat)
  | dispute (user : User) (eid : Nat) (req : EscrowRaiseDisputeReq) (now : Nat)
  | resolve (env : Web3Env) (user : User) (eid : Nat) (req : EscrowResolveDisputeReq)
      (userExists : Nat → Bool) (now : Nat)
  | ledger (ev : LedgerEvent) (now : Nat)

/-- The database after running one operation. -/
def Op.apply : Op → Db → Db
  | .fund env u r now, db => (fund_escrow env u r now db).db
  | .confirm env u eid r now, db => (confirm_delivery env u eid r now db).db
  | .dispute u eid r now, db => (raise_dispute u eid r now db).db
  | .resolve env u eid r ux now, db => (resolve_dispute env u eid r ux now db).db
  | .ledger ev now, db => process_single_event db ev now

/-- A sample environment with no web3 configuration. -/
def egEnv : Web3Env := {}

/-- A sample buyer (user id 1) and seller (user id 2). -/
def egBuyer : User := { id := 1 }

def egSeller : User := { id := 2 }

/-- A sample store whose escrow (buyer 1, seller 2, 100 wei, linked to
on-chain trade 7) awaits funding and has no events yet. -/
def egAwaitingDb : Db :=
  ⟨{ id := 1, contract_id := 1, buyer_id := 1, seller_id := 2, amount_wei := 100,
     state := .awaitingFund, onchain_trade_id := some 7 }, []⟩

/-- A sample Funded ledger event for trade 7. -/
def egFundedEvent : LedgerEvent :=
  { name := "Funded", args := { tradeId := 7, payer := "0xP", amount := 100 },
    transactionHash := "0xabc", blockNumber := 5, blockHash := "0xB", logIndex := 0 }

/-- The number of event rows carrying the idempotency key of this ledger
event. -/
def countKey (db : Db) (ev : LedgerEvent) : Nat :=
  db.events.countP fun e =>
    e.tx_hash == some ev.transactionHash && e.log_index == some ev.logIndex

/-- db2 extends db by exactly one event row keyed by this ledger event. -/
def AppendsKeyed (db db2 : Db) (ev : LedgerEvent) : Prop :=
  ∃ rec, db2.events = db.events ++ [rec] ∧
    rec.tx_hash = some ev.transactionHash ∧ rec.log_index = some ev.logIndex

/-- Sample store with the escrow FUNDED (buyer 1, seller 2, 100 wei,
trade 7) and no events. -/
def egFundedDb : Db :=
  ⟨{ id := 1, contract_id := 1, buyer_id := 1, seller_id := 2, amount_wei := 100,
     state := .funded, onchain_trade_id := some 7 }, []⟩

/-- Sample store with the escrow COMPLETE. -/
def egCompleteDb : Db :=
  ⟨{ id := 1, contract_id := 1, buyer_id := 1, seller_id := 2, amount_wei := 100,
     state := .complete, onchain_trade_id := some 7 }, []⟩

/-- A chain environment holding a single successful transaction 0xt (status
1, included at block 5, current height 10, threshold 3) of value 100 whose
recipient field is absent, as for a contract-creation transaction. -/
def egNoRecipientEnv : Web3Env :=
  { current_block := 10
    get_receipt := fun h => if h = "0xt" then some ⟨1, 5⟩ else none
    get_tx := fun h => if h = "0xt" then some ⟨none, 100⟩ else none }

/-- A chain environment holding a single successful transaction 0xt of
value 101 to the correct recipient 0xC, five blocks deep — one wei more
than the expected amount of 100. -/
def egOffByOneEnv : Web3Env :=
  { current_block := 10
    get_receipt := fun h => if h = "0xt" then some ⟨1, 5⟩ else none
    get_tx := fun h => if h = "0xt" then some ⟨some "0xC", 101⟩ else none }

/-- A well-formed 66-character transaction hash. -/
def egHash66 : String :=
  "0xaaaaaaaaaaaaaaaaaaaaaaaaaaaaaaaaaaaaaaaaaaaaaaaaaaaaaaaaaaaaaaaa"

/-- A chain environment in which egHash66 is a successful transaction of
value 100 to the configured contract address 0xC, five blocks deep with a
threshold of three. -/
def egVerifyEnv : Web3Env :=
  { contract_address := some "0xC"
    current_block := 10
    get_receipt := fun h => if h = egHash66 then some ⟨1, 5⟩ else none
    get_tx := fun h => if h = egHash66 then some ⟨some "0xC", 100⟩ else none }

/-- A funding request supplying egHash66 for escrow 1. -/
def egFundReq : EscrowFundReq := { escrow_id := 1, tx_hash := some egHash66 }

/-- A sample admin user. -/
def egAdmin : User := { id := 9, role := "admin" }

/-- Sample store with the escrow DISPUTED. -/
def egDisputedDb : Db :=
  ⟨{ id := 1, contract_id := 1, buyer_id := 1, seller_id := 2, amount_wei := 100,
     state := .disputed }, []⟩

/-- A funding request supplying BOTH a transaction hash and the custodial
flag. -/
def egBothReq : EscrowFundReq :=
  { escrow_id := 1, tx_hash := some egHash66, use_custodial := true }

/-- A resolve request with outcome partial whose payout_amount_wei field
is omitted from the JSON body (payout_amount_provided is false). -/
def egPartialReq : EscrowResolveDisputeReq :=
  { escrow_id := 1, outcome := "partial", resolution_notes := "split settlement" }

/-- The exact response of the witness run of fund_escrow. -/
def egFundOkRes : EscrowFundResponse :=
  { escrow_id := 1, status := "funded", tx_receipt := some ⟨1, 5⟩,
    confirmations := 3, is_confirmed := true }

/-- A creation request for 100 wei on contract 1. -/
def egCreateReq : EscrowCreateReq :=
  { contract_id := 1, buyer_id := 1, seller_id := 2, expected_amount_wei := 100 }

/-- A creation request exceeding the 1000 ETH cap by one wei. -/
def egTooBigReq : EscrowCreateReq :=
  { contract_id := 1, buyer_id := 1, seller_id := 2,
    expected_amount_wei := 1000 * 10 ^ 18 + 1 }

/-- The store produced by the witness run of create_escrow. -/
def egCreatedEvent : EscrowEvent :=
  { escrow_id := 1
    event_type := .created
    payload := [("contract_id", .int 1), ("expected_amount_wei", .int 100),
      ("create_on_chain", .bool false)]
    is_processed := true
    processed_at := some 0 }

def egCreatedEscrow : Escrow :=
  { id := 1
    contract_id := 1
    buyer_id := 1
    seller_id := 2
    amount_wei := 100
    state := .awaitingFund
    timeout_at := some (0 + 30 * 24 * 60 * 60)
    created_at := 0 }

def egCreatedDb : Db :=
  { escrow := egCreatedEscrow
    events := [egCreatedEvent] }

theorem fund_escrow_state (env : Web3Env) (u : User) (r : EscrowFundReq)
    (now : Nat) (db : Db) :
    (fund_escrow env u r now db).db.escrow.state = db.escrow.state ∨
    (db.escrow.state = .awaitingFund ∧
      (fund_escrow env u r now db).db.escrow.state = .funded) := by
  simp only [fund_escrow]
  repeat' split
  all_goals simp_all

theorem confirm_delivery_state (env : Web3Env) (u : User) (eid : Nat)
    (r : EscrowConfirmDeliveryReq) (now : Nat) (db : Db) :
    (confirm_delivery env u eid r now db).db.escrow.state = db.escrow.state ∨
    (db.escrow.state = .funded ∧
      (confirm_delivery env u eid r now db).db.escrow.state = .complete) := by
  simp only [confirm_delivery]
  repeat' split
  all_goals simp_all

theorem raise_dispute_state (u : User) (eid : Nat) (r : EscrowRaiseDisputeReq)
    (now : Nat) (db : Db) :
    (raise_dispute u eid r now db).db.escrow.state = db.escrow.state ∨
    (db.escrow.state = .funded ∧
      (raise_dispute u eid r now db).db.escrow.state = .disputed) := by
  simp only [raise_dispute]
  repeat' split
  all_goals simp_all

theorem resolve_dispute_state (env : Web3Env) (u : User) (eid : Nat)
    (r : EscrowResolveDisputeReq) (ux : Nat → Bool) (now : Nat) (db : Db) :
    (resolve_dispute env u eid r ux now db).db.escrow.state = db.escrow.state ∨
    (db.escrow.state = .disputed ∧
      (resolve_dispute env u eid r ux now db).db.escrow.state = .complete) := by
  simp only [resolve_dispute]
  repeat' split
  all_goals simp_all

theorem find_escrow_some {db : Db} {tid : Int} {esc : Escrow}
    (h : find_escrow_by_trade_id db tid = some esc) : esc = db.escrow := by
  unfold find_escrow_by_trade_id at h
  split at h <;> simp_all

theorem handle_escrow_created_state (db : Db) (ev : LedgerEvent) (now : Nat) :
    (handle_escrow_created db ev now).escrow.state = db.escrow.state := by
  unfold handle_escrow_created
  rcases hm : ev.args.metaEscrowId with _ | eid
  · simp [hm]
  · by_cases hid : db.escrow.id = eid <;> simp [hm, hid]

theorem handle_funded_state (db : Db) (ev : LedgerEvent) (now : Nat) :
    (handle_funded db ev now).escrow.state = db.escrow.state ∨
    (db.escrow.state = .awaitingFund ∧ (handle_funded db ev now).escrow.state = .funded) := by
  unfold handle_funded
  cases hfind : find_escrow_by_trade_id db ev.args.tradeId with
  | none => simp only [hfind]; exact Or.inl trivial
  | some esc =>
    obtain rfl := find_escrow_some hfind
    by_cases hs : db.escrow.state = .awaitingFund
    · exact Or.inr ⟨hs, by simp [hfind, hs]⟩
    · exact Or.inl (by simp [hfind, hs])

theorem handle_delivery_confirmed_state (db : Db) (ev : LedgerEvent) (now : Nat) :
    (handle_delivery_confirmed db ev now).escrow.state = db.escrow.state ∨
    ((db.escrow.state = .funded ∨ db.escrow.state = .awaitingDelivery) ∧
      (handle_delivery_confirmed db ev now).escrow.state = .complete) := by
  unfold handle_delivery_confirmed
  cases hfind : find_escrow_by_trade_id db ev.args.tradeId with
  | none => simp only [hfind]; exact Or.inl trivial
  | some esc =>
    obtain rfl := find_escrow_some hfind
    by_cases hs : db.escrow.state = .funded ∨ db.escrow.state = .awaitingDelivery
    · exact Or.inr ⟨hs, by simp [hfind, hs]⟩
    · exact Or.inl (by simp [hfind, hs])

theorem handle_released_state (db : Db) (ev : LedgerEvent) (now : Nat) :
    (handle_released db ev now).escrow.state = db.escrow.state := by
  unfold handle_released
  cases hfind : find_escrow_by_trade_id db ev.args.tradeId with
  | none => simp only [hfind]
  | some esc =>
    obtain rfl := find_escrow_some hfind
    simp [hfind]

theorem handle_disputed_state (db : Db) (ev : LedgerEvent) (now : Nat) :
    (handle_disputed db ev now).escrow.state = db.escrow.state ∨
    (db.escrow.state = .funded ∧ (handle_disputed db ev now).escrow.state = .disputed) := by
  unfold handle_disputed
  cases hfind : find_escrow_by_trade_id db ev.args.tradeId with
  | none => simp only [hfind]; exact Or.inl trivial
  | some esc =>
    obtain rfl := find_escrow_some hfind
    by_cases hs : db.escrow.state = .funded
    · exact Or.inr ⟨hs, by simp [hfind, hs]⟩
    · exact Or.inl (by simp [hfind, hs])

theorem handle_resolved_state (db : Db) (ev : LedgerEvent) (now : Nat) :
    (handle_resolved db ev now).escrow.state = db.escrow.state ∨
    (db.escrow.state = .disputed ∧ (handle_resolved db ev now).escrow.state = .complete) := by
  unfold handle_resolved
  cases hfind : find_escrow_by_trade_id db ev.args.tradeId with
  | none => simp only [hfind]; exact Or.inl trivial
  | some esc =>
    obtain rfl := find_escrow_some hfind
    by_cases hs : db.escrow.state = .disputed
    · exact Or.inr ⟨hs, by simp [hfind, hs]⟩
    · exact Or.inl (by simp [hfind, hs])

theorem handle_timeout_refund_state (db : Db) (ev : LedgerEvent) (now : Nat) :
    (handle_timeout_refund db ev now).escrow.state = db.escrow.state ∨
    (db.escrow.state = .funded ∧ (handle_timeout_refund db ev now).escrow.state = .complete) := by
  unfold handle_timeout_refund
  cases hfind : find_escrow_by_trade_id db ev.args.tradeId with
  | none => simp only [hfind]; exact Or.inl trivial
  | some esc =>
    obtain rfl := find_escrow_some hfind
    by_cases hs : db.escrow.state = .funded
    · exact Or.inr ⟨hs, by simp [hfind, hs]⟩
    · exact Or.inl (by simp [hfind, hs])

theorem process_single_event_state (db : Db) (ev : LedgerEvent) (now : Nat) :
    (process_single_event db ev now).escrow.state = db.escrow.state ∨
    (db.escrow.state = .awaitingFund ∧
      (process_single_event db ev now).escrow.state = .funded) ∨
    (db.escrow.state = .funded ∧
      ((process_single_event db ev now).escrow.state = .complete ∨
       (process_single_event db ev now).escrow.state = .disputed)) ∨
    (db.escrow.state = .awaitingDelivery ∧
      (process_single_event db ev now).escrow.state = .complete) ∨
    (db.escrow.state = .disputed ∧
      (process_single_event db ev now).escrow.state = .complete) := by
  unfold process_single_event
  split
  · exact Or.inl rfl
  split
  · exact Or.inl (handle_escrow_created_state db ev now)
  split
  · rcases handle_funded_state db ev now with h | ⟨h1, h2⟩
    · exact Or.inl h
    · exact Or.inr (Or.inl ⟨h1, h2⟩)
  split
  · rcases handle_delivery_confirmed_state db ev now with h | ⟨h1 | h1, h2⟩
    · exact Or.inl h
    · exact Or.inr (Or.inr (Or.inl ⟨h1, Or.inl h2⟩))
    · exact Or.inr (Or.inr (Or.inr (Or.inl ⟨h1, h2⟩)))
  split
  · exact Or.inl (handle_released_state db ev now)
  split
  · rcases handle_disputed_state db ev now with h | ⟨h1, h2⟩
    · exact Or.inl h
    · exact Or.inr (Or.inr (Or.inl ⟨h1, Or.inr h2⟩))
  split
  · rcases handle_resolved_state db ev now with h | ⟨h1, h2⟩
    · exact Or.inl h
    · exact Or.inr (Or.inr (Or.inr (Or.inr ⟨h1, h2⟩)))
  split
  · rcases handle_timeout_refund_state db ev now with h | ⟨h1, h2⟩
    · exact Or.inl h
    · exact Or.inr (Or.inr (Or.inl ⟨h1, Or.inl h2⟩))
  exact Or.inl rfl

theorem tableEdge_not_awaitingDelivery {s t : EscrowState} (h : tableEdge s t = true) :
    t ≠ .awaitingDelivery := by
  cases s <;> cases t <;> simp_all [tableEdge]

theorem tableReachable_not_awaitingDelivery {s : EscrowState} (h : TableReachable s) :
    s ≠ .awaitingDelivery := by
  induction h with
  | init => exact fun hc => by cases hc
  | step _ he _ => exact tableEdge_not_awaitingDelivery he

theorem op_apply_state (o : Op) (db : Db) (h : db.escrow.state ≠ .awaitingDelivery) :
    (o.apply db).escrow.state = db.escrow.state ∨
    tableEdge db.escrow.state (o.apply db).escrow.state = true := by
  cases o with
  | fund env u r now =>
    rcases fund_escrow_state env u r now db with hc | ⟨h1, h2⟩
    · exact Or.inl hc
    · exact Or.inr (by simp only [Op.apply] at h2 ⊢; rw [h1, h2]; rfl)
  | confirm env u eid r now =>
    rcases confirm_delivery_state env u eid r now db with hc | ⟨h1, h2⟩
    · exact Or.inl hc
    · exact Or.inr (by simp only [Op.apply] at h2 ⊢; rw [h1, h2]; rfl)
  | dispute u eid r now =>
    rcases raise_dispute_state u eid r now db with hc | ⟨h1, h2⟩
    · exact Or.inl hc
    · exact Or.inr (by simp only [Op.apply] at h2 ⊢; rw [h1, h2]; rfl)
  | resolve env u eid r ux now =>
    rcases resolve_dispute_state env u eid r ux now db with hc | ⟨h1, h2⟩
    · exact Or.inl hc
    · exact Or.inr (by simp only [Op.apply] at h2 ⊢; rw [h1, h2]; rfl)
  | ledger ev now =>
    rcases process_single_event_state db ev now with hc | ⟨h1, h2⟩ | ⟨h1, h2 | h2⟩ | ⟨h1, h2⟩ | ⟨h1, h2⟩
    · exact Or.inl hc
    · exact Or.inr (by simp only [Op.apply] at h2 ⊢; rw [h1, h2]; rfl)
    · exact Or.inr (by simp only [Op.apply] at h2 ⊢; rw [h1, h2]; rfl)
    · exact Or.inr (by simp only [Op.apply] at h2 ⊢; rw [h1, h2]; rfl)
    · exact absurd h1 h
    · exact Or.inr (by simp only [Op.apply] at h2 ⊢; rw [h1, h2]; rfl)

theorem create_escrow_state (env : Web3Env) (u : User) (req : EscrowCreateReq)
    (c : Option ContractRec) (ux : Nat → Bool) (ex : Bool) (nid now : Nat) (d : Db)
    (h : (create_escrow env u req c ux ex nid now).db = some d) :
    TableReachable d.escrow.state := by
  unfold create_escrow at h
  repeat' split at h
  all_goals simp_all
  all_goals subst h
  all_goals first
    | exact TableReachable.init
    | exact TableReachable.step TableReachable.init rfl

/-- Claim C1: every state change performed by any operation (create_escrow,
fund_escrow, confirm_delivery, raise_dispute, resolve_dispute, and every
Event Reconciler handler) moves the escrow along the transition table of
spec section 4.3, so every reachable state is reachable from AWAITING_FUND
via that table: the state of a freshly created escrow is table-reachable,
one operation takes a table-reachable state to a table-reachable state and
either leaves the state unchanged or follows a table edge, and hence any
sequence of operations keeps the state table-reachable.  (That the state
takes only the five defined values holds by the EscrowState type.) -/
theorem escrow_state_transitions_follow_table :
    (∀ env u req c ux ex nid now d,
        (create_escrow env u req c ux ex nid now).db = some d →
        TableReachable d.escrow.state) ∧
    (∀ (o : Op) (db : Db), TableReachable db.escrow.state →
        TableReachable (o.apply db).escrow.state ∧
        ((o.apply db).escrow.state = db.escrow.state ∨
          tableEdge db.escrow.state (o.apply db).escrow.state = true)) ∧
    (∀ (ops : List Op) (db : Db), TableReachable db.escrow.state →
        TableReachable (ops.foldl (fun d o => o.apply d) db).escrow.state) := by
  have hstep : ∀ (o : Op) (db : Db), TableReachable db.escrow.state →
      TableReachable (o.apply db).escrow.state ∧
      ((o.apply db).escrow.state = db.escrow.state ∨
        tableEdge db.escrow.state (o.apply db).escrow.state = true) := by
    intro o db hr
    rcases op_apply_state o db (tableReachable_not_awaitingDelivery hr) with hc | he
    · exact ⟨by rw [hc]; exact hr, Or.inl hc⟩
    · exact ⟨hr.step he, Or.inr he⟩
  refine ⟨fun env u req c ux ex nid now d h =>
    create_escrow_state env u req c ux ex nid now d h, hstep, ?_⟩
  intro ops
  induction ops with
  | nil => exact fun db hr => hr
  | cons o rest ih =>
    intro db hr
    simpa only [List.foldl_cons] using ih (o.apply db) (hstep o db hr).1

/-- Witness for C1: applying the reconciler to a Funded ledger event on an
escrow in AWAITING_FUND keeps the state table-reachable, and the change is
along the table. -/
theorem escrow_state_transitions_follow_table_witness :
    TableReachable ((Op.ledger egFundedEvent 5).apply egAwaitingDb).escrow.state ∧
    (((Op.ledger egFundedEvent 5).apply egAwaitingDb).escrow.state =
        egAwaitingDb.escrow.state ∨
      tableEdge egAwaitingDb.escrow.state
        ((Op.ledger egFundedEvent 5).apply egAwaitingDb).escrow.state = true) :=
  escrow_state_transitions_follow_table.2.1 (Op.ledger egFundedEvent 5) egAwaitingDb
    TableReachable.init

theorem appendsKeyed_of_record (db : Db) (esc : Escrow) (eid : Nat)
    (ty : EscrowEventType) (pl : List (String × PVal)) (ev : LedgerEvent) (now : Nat) :
    AppendsKeyed db ⟨esc, db.events ++ [create_event_record eid ty pl ev now]⟩ ev :=
  ⟨create_event_record eid ty pl ev now, rfl, rfl, rfl⟩

theorem handle_escrow_created_keyed (db : Db) (ev : LedgerEvent) :
    (∀ n, handle_escrow_created db ev n = db) ∨
    (∀ n, AppendsKeyed db (handle_escrow_created db ev n) ev) := by
  unfold handle_escrow_created
  rcases hm : ev.args.metaEscrowId with _ | eid
  · exact Or.inl fun n => by simp [hm]
  · by_cases hid : db.escrow.id = eid
    · refine Or.inr fun n => ?_
      simp only [hm, hid, if_pos]
      exact appendsKeyed_of_record db _ _ _ _ ev n
    · exact Or.inl fun n => by simp [hm, hid]

theorem handle_funded_keyed (db : Db) (ev : LedgerEvent) :
    (∀ n, handle_funded db ev n = db) ∨
    (∀ n, AppendsKeyed db (handle_funded db ev n) ev) := by
  unfold handle_funded
  cases hfind : find_escrow_by_trade_id db ev.args.tradeId with
  | none => exact Or.inl fun n => by simp [hfind]
  | some esc =>
    refine Or.inr fun n => ?_
    simp only [hfind]
    exact appendsKeyed_of_record db _ _ _ _ ev n

theorem handle_delivery_confirmed_keyed (db : Db) (ev : LedgerEvent) :
    (∀ n, handle_delivery_confirmed db ev n = db) ∨
    (∀ n, AppendsKeyed db (handle_delivery_confirmed db ev n) ev) := by
  unfold handle_delivery_confirmed
  cases hfind : find_escrow_by_trade_id db ev.args.tradeId with
  | none => exact Or.inl fun n => by simp [hfind]
  | some esc =>
    refine Or.inr fun n => ?_
    simp only [hfind]
    exact appendsKeyed_of_record db _ _ _ _ ev n

theorem handle_released_keyed (db : Db) (ev : LedgerEvent) :
    (∀ n, handle_released db ev n = db) ∨
    (∀ n, AppendsKeyed db (handle_released db ev n) ev) := by
  unfold handle_released
  cases hfind : find_escrow_by_trade_id db ev.args.tradeId with
  | none => exact Or.inl fun n => by simp [hfind]
  | some esc =>
    refine Or.inr fun n => ?_
    simp only [hfind]
    exact appendsKeyed_of_record db _ _ _ _ ev n

theorem handle_disputed_keyed (db : Db) (ev : LedgerEvent) :
    (∀ n, handle_disputed db ev n = db) ∨
    (∀ n, AppendsKeyed db (handle_disputed db ev n) ev) := by
  unfold handle_disputed
  cases hfind : find_escrow_by_trade_id db ev.args.tradeId with
  | none => exact Or.inl fun n => by simp [hfind]
  | some esc =>
    refine Or.inr fun n => ?_
    simp only [hfind]
    exact appendsKeyed_of_record db _ _ _ _ ev n

theorem handle_resolved_keyed (db : Db) (ev : LedgerEvent) :
    (∀ n, handle_resolved db ev n = db) ∨
    (∀ n, AppendsKeyed db (handle_resolved db ev n) ev) := by
  unfold handle_resolved
  cases hfind : find_escrow_by_trade_id db ev.args.tradeId with
  | none => exact Or.inl fun n => by simp [hfind]
  | some esc =>
    refine Or.inr fun n => ?_
    simp only [hfind]
    exact appendsKeyed_of_record db _ _ _ _ ev n

theorem handle_timeout_refund_keyed (db : Db) (ev : LedgerEvent) :
    (∀ n, handle_timeout_refund db ev n = db) ∨
    (∀ n, AppendsKeyed db (handle_timeout_refund db ev n) ev) := by
  unfold handle_timeout_refund
  cases hfind : find_escrow_by_trade_id db ev.args.tradeId with
  | none => exact Or.inl fun n => by simp [hfind]
  | some esc =>
    refine Or.inr fun n => ?_
    simp only [hfind]
    exact appendsKeyed_of_record db _ _ _ _ ev n

theorem process_single_event_skip {db : Db} {ev : LedgerEvent} (now : Nat)
    (h : hasKey db ev = true) : process_single_event db ev now = db := by
  unfold process_single_event
  rw [h]
  simp

theorem process_single_event_keyed (db : Db) (ev : LedgerEvent) :
    (∀ n, process_single_event db ev n = db) ∨
    (∀ n, AppendsKeyed db (process_single_event db ev n) ev) := by
  by_cases hk : hasKey db ev = true
  · exact Or.inl fun n => process_single_event_skip n hk
  have hunf : ∀ n, process_single_event db ev n =
      (if ev.name = "EscrowCreated" then handle_escrow_created db ev n
      else if ev.name = "Funded" then handle_funded db ev n
      else if ev.name = "DeliveryConfirmed" then handle_delivery_confirmed db ev n
      else if ev.name = "Released" then handle_released db ev n
      else if ev.name = "Disputed" then handle_disputed db ev n
      else if ev.name = "Resolved" then handle_resolved db ev n
      else if ev.name = "TimeoutRefund" then handle_timeout_refund db ev n
      else db) := by
    intro n
    unfold process_single_event
    rw [if_neg hk]
  by_cases h1 : ev.name = "EscrowCreated"
  · rcases handle_escrow_created_keyed db ev with ha | ha
    · exact Or.inl fun n => by rw [hunf n, if_pos h1]; exact ha n
    · exact Or.inr fun n => by rw [hunf n, if_pos h1]; exact ha n
  by_cases h2 : ev.name = "Funded"
  · rcases handle_funded_keyed db ev with ha | ha
    · exact Or.inl fun n => by rw [hunf n, if_neg h1, if_pos h2]; exact ha n
    · exact Or.inr fun n => by rw [hunf n, if_neg h1, if_pos h2]; exact ha n
  by_cases h3 : ev.name = "DeliveryConfirmed"
  · rcases handle_delivery_confirmed_keyed db ev with ha | ha
    · exact Or.inl fun n => by rw [hunf n, if_neg h1, if_neg h2, if_pos h3]; exact ha n
    · exact Or.inr fun n => by rw [hunf n, if_neg h1, if_neg h2, if_pos h3]; exact ha n
  by_cases h4 : ev.name = "Released"
  · rcases handle_released_keyed db ev with ha | ha
    · exact Or.inl fun n => by
        rw [hunf n, if_neg h1, if_neg h2, if_neg h3, if_pos h4]; exact ha n
    · exact Or.inr fun n => by
        rw [hunf n, if_neg h1, if_neg h2, if_neg h3, if_pos h4]; exact ha n
  by_cases h5 : ev.name = "Disputed"
  · rcases handle_disputed_keyed db ev with ha | ha
    · exact Or.inl fun n => by
        rw [hunf n, if_neg h1, if_neg h2, if_neg h3, if_neg h4, if_pos h5]; exact ha n
    · exact Or.inr fun n => by
        rw [hunf n, if_neg h1, if_neg h2, if_neg h3, if_neg h4, if_pos h5]; exact ha n
  by_cases h6 : ev.name = "Resolved"
  · rcases handle_resolved_keyed db ev with ha | ha
    · exact Or.inl fun n => by
        rw [hunf n, if_neg h1, if_neg h2, if_neg h3, if_neg h4, if_neg h5, if_pos h6]
        exact ha n
    · exact Or.inr fun n => by
        rw [hunf n, if_neg h1, if_neg h2, if_neg h3, if_neg h4, if_neg h5, if_pos h6]
        exact ha n
  by_cases h7 : ev.name = "TimeoutRefund"
  · rcases handle_timeout_refund_keyed db ev with ha | ha
    · exact Or.inl fun n => by
        rw [hunf n, if_neg h1, if_neg h2, if_neg h3, if_neg h4, if_neg h5, if_neg h6,
          if_pos h7]
        exact ha n
    · exact Or.inr fun n => by
        rw [hunf n, if_neg h1, if_neg h2, if_neg h3, if_neg h4, if_neg h5, if_neg h6,
          if_pos h7]
        exact ha n
  exact Or.inl fun n => by
    rw [hunf n, if_neg h1, if_neg h2, if_neg h3, if_neg h4, if_neg h5, if_neg h6, if_neg h7]

theorem hasKey_of_appendsKeyed {db db2 : Db} {ev : LedgerEvent}
    (h : AppendsKeyed db db2 ev) : hasKey db2 ev = true := by
  obtain ⟨rec, he, h1, h2⟩ := h
  unfold hasKey
  rw [he]
  simp [h1, h2]

theorem countP_singleton_le {α : Type} (p : α → Bool) (a : α) :
    List.countP p [a] ≤ 1 := by
  simp [List.countP_cons]
  split <;> omega

/-- Claim C2: processing the same ledger event (identical transaction hash
and log position) twice through the Event Reconciler is idempotent — the
second application (at any later time) leaves the store exactly as the
first left it — and one application adds at most one event row carrying
that idempotency key, so after the two applications exactly one such row
exists when none did before, and the escrow undergoes one state
transition, not two. -/
theorem event_reconciler_idempotent (db : Db) (ev : LedgerEvent) (now now2 : Nat) :
    process_single_event (process_single_event db ev now) ev now2 =
      process_single_event db ev now ∧
    countKey (process_single_event db ev now) ev ≤ countKey db ev + 1 := by
  rcases process_single_event_keyed db ev with hall | hk
  · constructor
    · rw [hall now]
      exact hall now2
    · rw [hall now]
      exact Nat.le_succ _
  · constructor
    · exact process_single_event_skip now2 (hasKey_of_appendsKeyed (hk now))
    · obtain ⟨rec, he, _, _⟩ := hk now
      unfold countKey
      rw [he, List.countP_append]
      have h1 := countP_singleton_le
        (fun e : EscrowEvent =>
          e.tx_hash == some ev.transactionHash && e.log_index == some ev.logIndex) rec
      omega

/-- Claim C3 counterexample: a first confirm_delivery by the seller on a
FUNDED escrow succeeds and moves it to COMPLETE, and the second call
against the now-COMPLETE escrow is rejected with HTTP 400 — not treated
as a no-op success as the claim states. -/
theorem second_confirm_delivery_rejected :
    (∃ r, (confirm_delivery egEnv egSeller 1 { escrow_id := 1 } 5 egFundedDb).res = .ok r) ∧
    (confirm_delivery egEnv egSeller 1 { escrow_id := 1 } 5 egFundedDb).db.escrow.state =
      .complete ∧
    (confirm_delivery egEnv egSeller 1 { escrow_id := 1 } 9
        (confirm_delivery egEnv egSeller 1 { escrow_id := 1 } 5 egFundedDb).db).res =
      .error ⟨400, "Cannot confirm delivery for escrow in state"⟩ :=
  ⟨⟨_, rfl⟩, rfl, rfl⟩

/-- Claim C3 (amended): an API transition attempted when the escrow is not
in the required source state — including when it is already in the target
state — is rejected as an error with no change to the store, for every
endpoint (fund_escrow outside AWAITING_FUND, confirm_delivery and
raise_dispute outside FUNDED, resolve_dispute outside DISPUTED); so a
second confirm_delivery against a COMPLETE escrow returns an error, not a
no-op success.  Only the Event Reconciler treats an already-advanced
escrow as a no-op: its Funded handler leaves the escrow row untouched when
the state is not AWAITING_FUND, while still appending a funded event
record. -/
theorem already_target_state_handling :
    (∀ env u req now db, db.escrow.state ≠ .awaitingFund →
      ∃ e, (fund_escrow env u req now db).res = .error e ∧
        (fund_escrow env u req now db).db = db) ∧
    (∀ env u eid req now db, db.escrow.state ≠ .funded →
      ∃ e, (confirm_delivery env u eid req now db).res = .error e ∧
        (confirm_delivery env u eid req now db).db = db) ∧
    (∀ u eid req now db, db.escrow.state ≠ .funded →
      ∃ e, (raise_dispute u eid req now db).res = .error e ∧
        (raise_dispute u eid req now db).db = db) ∧
    (∀ env u eid req ux now db, db.escrow.state ≠ .disputed →
      ∃ e, (resolve_dispute env u eid req ux now db).res = .error e ∧
        (resolve_dispute env u eid req ux now db).db = db) ∧
    (∀ db ev n esc, find_escrow_by_trade_id db ev.args.tradeId = some esc →
      db.escrow.state ≠ .awaitingFund →
      (handle_funded db ev n).escrow = db.escrow ∧
      ∃ rec, rec.event_type = .funded ∧
        (handle_funded db ev n).events = db.events ++ [rec]) := by
  refine ⟨?_, ?_, ?_, ?_, ?_⟩
  · intro env u req now db h
    simp only [fund_escrow]
    repeat' split
    all_goals exact ⟨_, rfl, rfl⟩
  · intro env u eid req now db h
    simp only [confirm_delivery]
    repeat' split
    all_goals exact ⟨_, rfl, rfl⟩
  · intro u eid req now db h
    simp only [raise_dispute]
    repeat' split
    all_goals exact ⟨_, rfl, rfl⟩
  · intro env u eid req ux now db h
    simp only [resolve_dispute]
    repeat' split
    all_goals exact ⟨_, rfl, rfl⟩
  · intro db ev n esc hfind h
    obtain rfl := find_escrow_some hfind
    have hred : handle_funded db ev n =
        { escrow := db.escrow
          events := db.events ++ [create_event_record db.escrow.id .funded
            [("trade_id", .int ev.args.tradeId), ("payer", .str ev.args.payer),
             ("amount", .int ev.args.amount)] ev n] } := by
      unfold handle_funded
      simp [hfind, h]
    rw [hred]
    exact ⟨rfl, _, rfl, rfl⟩

/-- Witness for the amended C3: each endpoint run against an escrow in a
wrong source state is rejected without touching the store (fund and
resolve against the FUNDED store, confirm and dispute against the COMPLETE
store), and the Funded handler on a FUNDED escrow leaves the escrow row
unchanged while appending one funded record. -/
theorem already_target_state_handling_witness :
    (∃ e, (fund_escrow egEnv egBuyer { escrow_id := 1 } 5 egFundedDb).res = .error e ∧
      (fund_escrow egEnv egBuyer { escrow_id := 1 } 5 egFundedDb).db = egFundedDb) ∧
    (∃ e, (confirm_delivery egEnv egSeller 1 { escrow_id := 1 } 5 egCompleteDb).res =
        .error e ∧
      (confirm_delivery egEnv egSeller 1 { escrow_id := 1 } 5 egCompleteDb).db =
        egCompleteDb) ∧
    (∃ e, (raise_dispute egBuyer 1 { escrow_id := 1, reason := "item not shipped" } 6
        egCompleteDb).res = .error e ∧
      (raise_dispute egBuyer 1 { escrow_id := 1, reason := "item not shipped" } 6
        egCompleteDb).db = egCompleteDb) ∧
    (∃ e, (resolve_dispute egEnv egAdmin 1
        { escrow_id := 1, outcome := "refund", resolution_notes := "refund the buyer" }
        (fun _ => true) 8 egFundedDb).res = .error e ∧
      (resolve_dispute egEnv egAdmin 1
        { escrow_id := 1, outcome := "refund", resolution_notes := "refund the buyer" }
        (fun _ => true) 8 egFundedDb).db = egFundedDb) ∧
    ((handle_funded egFundedDb egFundedEvent 5).escrow = egFundedDb.escrow ∧
      ∃ rec, rec.event_type = EscrowEventType.funded ∧
        (handle_funded egFundedDb egFundedEvent 5).events =
          egFundedDb.events ++ [rec]) :=
  ⟨already_target_state_handling.1 egEnv egBuyer { escrow_id := 1 } 5 egFundedDb
      (by decide),
   already_target_state_handling.2.1 egEnv egSeller 1 { escrow_id := 1 } 5 egCompleteDb
      (by decide),
   already_target_state_handling.2.2.1 egBuyer 1
      { escrow_id := 1, reason := "item not shipped" } 6 egCompleteDb (by decide),
   already_target_state_handling.2.2.2.1 egEnv egAdmin 1
      { escrow_id := 1, outcome := "refund", resolution_notes := "refund the buyer" }
      (fun _ => true) 8 egFundedDb (by decide),
   already_target_state_handling.2.2.2.2 egFundedDb egFundedEvent 5 egFundedDb.escrow
      rfl (by decide)⟩

/-- Claim C4 counterexample: verify_funding_tx accepts this funding proof
although the transaction recipient does not equal the expected address
after checksum normalization (the transaction has no recipient at all), so
the only-if direction of the claim fails. -/
theorem verify_accepts_without_recipient :
    (verify_funding_tx egNoRecipientEnv "0xt" 100 (some "0xC")).accepted ∧
    ¬ specVerifyAccepts egNoRecipientEnv "0xt" 100 "0xC" := by
  constructor
  · have hv : verify_funding_tx egNoRecipientEnv "0xt" 100 (some "0xC") =
        .valid ⟨1, 5⟩ := by decide
    rw [hv]
    trivial
  · rintro ⟨-, t, ht, ⟨a, ha, -⟩, -⟩
    have h1 : (⟨none, 100⟩ : TxData) = t := by
      simpa [egNoRecipientEnv] using ht
    rw [← h1] at ha
    simp at ha

/-- Claim C4 (amended): for every transaction hash, expected amount and
expected recipient, verify_funding_tx accepts exactly when the receipt
exists with success status and at least the configured confirmation depth,
the transaction body exists, its recipient either matches the expected
address after checksum normalization or is absent altogether (the source
skips the recipient check when the transaction has no recipient, as for a
contract creation), and its value equals the expected amount exactly — so
whenever the transaction value differs from the expected amount by any
nonzero amount, even one unit, the proof is rejected. -/
theorem verify_funding_tx_characterization (env : Web3Env) (h : String)
    (amt : Int) (a : String) :
    ((verify_funding_tx env h amt (some a)).accepted ↔
     ((∃ r, env.get_receipt h = some r ∧ r.status = 1 ∧
         env.confirmations_required ≤ env.current_block - r.blockNumber) ∧
      (∃ t, env.get_tx h = some t ∧
         (t.toAddr = none ∨
           ∃ ta, t.toAddr = some ta ∧ env.checksum ta = env.checksum a) ∧
         t.value = amt))) ∧
    (∀ t, env.get_tx h = some t → t.value ≠ amt →
      ¬ (verify_funding_tx env h amt (some a)).accepted) := by
  have hiff : (verify_funding_tx env h amt (some a)).accepted ↔
      ((∃ r, env.get_receipt h = some r ∧ r.status = 1 ∧
          env.confirmations_required ≤ env.current_block - r.blockNumber) ∧
       (∃ t, env.get_tx h = some t ∧
          (t.toAddr = none ∨
            ∃ ta, t.toAddr = some ta ∧ env.checksum ta = env.checksum a) ∧
          t.value = amt)) := by
    unfold verify_funding_tx
    cases hr : env.get_receipt h with
    | none => simp [VerifyOut.accepted, hr]
    | some r =>
      by_cases hs : r.status = 1
      · by_cases hc : env.current_block - r.blockNumber < env.confirmations_required
        · simp only [hr, hs, hc]
          simp [VerifyOut.accepted]
          intro r2 hr2
          omega
        · cases ht : env.get_tx h with
          | none => simp [VerifyOut.accepted, hr, hs, hc, ht]
          | some t =>
            cases hta : t.toAddr with
            | none =>
              by_cases hv : t.value = amt
              · simp [VerifyOut.accepted, hr, hs, hc, ht, hta, hv]
                omega
              · simp [VerifyOut.accepted, hr, hs, hc, ht, hta, hv]
            | some ta =>
              by_cases hck : env.checksum ta = env.checksum a
              · by_cases hv : t.value = amt
                · simp [VerifyOut.accepted, hr, hs, hc, ht, hta, hck, hv]
                  omega
                · simp [VerifyOut.accepted, hr, hs, hc, ht, hta, hck, hv]
              · simp [VerifyOut.accepted, hr, hs, hc, ht, hta, hck]
      · simp [VerifyOut.accepted, hr, hs]
  refine ⟨hiff, ?_⟩
  intro t ht hv hacc
  obtain ⟨-, t2, ht2, -, hval⟩ := hiff.mp hacc
  rw [ht] at ht2
  obtain rfl := Option.some.inj ht2
  exact hv hval

/-- Witness for the amended C4: a transaction paying 101 to the correct
recipient where 100 is expected — off by a single unit — is rejected. -/
theorem verify_funding_tx_characterization_witness :
    ¬ (verify_funding_tx egOffByOneEnv "0xt" 100 (some "0xC")).accepted :=
  (verify_funding_tx_characterization egOffByOneEnv "0xt" 100 "0xC").2
    ⟨some "0xC", 101⟩ rfl (by decide)

theorem fund_escrow_success_shape (env : Web3Env) (u : User) (r : EscrowFundReq)
    (now : Nat) (db : Db) :
    (∃ res, (fund_escrow env u r now db).res = .ok res) →
    ∃ ev, ev.event_type = .funded ∧
      (fund_escrow env u r now db).db.events = db.events ++ [ev] ∧
      (fund_escrow env u r now db).commits =
        [⟨(fund_escrow env u r now db).db.escrow, db.events⟩,
         (fund_escrow env u r now db).db] := by
  simp only [fund_escrow]
  repeat' split
  all_goals first
    | (intro h; exact ⟨_, rfl, rfl, rfl⟩)
    | simp

theorem confirm_delivery_success_shape (env : Web3Env) (u : User) (eid : Nat)
    (r : EscrowConfirmDeliveryReq) (now : Nat) (db : Db) :
    (∃ res, (confirm_delivery env u eid r now db).res = .ok res) →
    ∃ ev, ev.event_type = .deliveryConfirmed ∧
      (confirm_delivery env u eid r now db).db.events = db.events ++ [ev] ∧
      (confirm_delivery env u eid r now db).commits =
        [⟨(confirm_delivery env u eid r now db).db.escrow, db.events⟩,
         (confirm_delivery env u eid r now db).db] := by
  simp only [confirm_delivery]
  repeat' split
  all_goals first
    | (intro h; exact ⟨_, rfl, rfl, rfl⟩)
    | simp

theorem raise_dispute_success_shape (u : User) (eid : Nat)
    (r : EscrowRaiseDisputeReq) (now : Nat) (db : Db) :
    (∃ res, (raise_dispute u eid r now db).res = .ok res) →
    ∃ ev, ev.event_type = .disputed ∧
      (raise_dispute u eid r now db).db.events = db.events ++ [ev] ∧
      (raise_dispute u eid r now db).commits =
        [⟨(raise_dispute u eid r now db).db.escrow, db.events⟩,
         (raise_dispute u eid r now db).db] := by
  simp only [raise_dispute]
  repeat' split
  all_goals first
    | (intro h; exact ⟨_, rfl, rfl, rfl⟩)
    | simp

theorem resolve_dispute_success_shape (env : Web3Env) (u : User) (eid : Nat)
    (r : EscrowResolveDisputeReq) (ux : Nat → Bool) (now : Nat) (db : Db) :
    (∃ res, (resolve_dispute env u eid r ux now db).res = .ok res) →
    ∃ ev, ev.event_type = .resolved ∧
      (resolve_dispute env u eid r ux now db).db.events = db.events ++ [ev] ∧
      (resolve_dispute env u eid r ux now db).commits =
        [⟨(resolve_dispute env u eid r ux now db).db.escrow, db.events⟩,
         (resolve_dispute env u eid r ux now db).db] := by
  simp only [resolve_dispute]
  repeat' split
  all_goals first
    | (intro h; exact ⟨_, rfl, rfl, rfl⟩)
    | simp

/-- Claim C5 counterexample: a successful fund_escrow run commits the state
change and the event record in two separate transactions; its first
committed snapshot already has the escrow FUNDED while holding no event at
all, so the pair does not commit atomically as the claim states. -/
theorem state_commit_precedes_event_commit :
    (∃ r, (fund_escrow egVerifyEnv egBuyer egFundReq 7 egAwaitingDb).res = .ok r) ∧
    ∃ d1, (fund_escrow egVerifyEnv egBuyer egFundReq 7 egAwaitingDb).commits.head? =
        some d1 ∧
      d1.escrow.state = .funded ∧ d1.events = [] :=
  ⟨⟨_, rfl⟩, _, rfl, rfl, rfl⟩

/-- Claim C5 (amended): every successful transition (fund_escrow,
confirm_delivery, raise_dispute, resolve_dispute) appends exactly one
EscrowEvent of the matching kind, but the transition is not atomic: the
state change is committed first and the event record second, so the commit
sequence of a successful run is [state changed with the old events, state
changed plus the one new event], and an interruption between the two
commits leaves the state advanced without its event. -/
theorem transition_appends_one_event_in_second_commit :
    (∀ env u r now db, (∃ res, (fund_escrow env u r now db).res = .ok res) →
      ∃ ev, ev.event_type = .funded ∧
        (fund_escrow env u r now db).db.events = db.events ++ [ev] ∧
        (fund_escrow env u r now db).commits =
          [⟨(fund_escrow env u r now db).db.escrow, db.events⟩,
           (fund_escrow env u r now db).db]) ∧
    (∀ env u eid r now db, (∃ res, (confirm_delivery env u eid r now db).res = .ok res) →
      ∃ ev, ev.event_type = .deliveryConfirmed ∧
        (confirm_delivery env u eid r now db).db.events = db.events ++ [ev] ∧
        (confirm_delivery env u eid r now db).commits =
          [⟨(confirm_delivery env u eid r now db).db.escrow, db.events⟩,
           (confirm_delivery env u eid r now db).db]) ∧
    (∀ u eid r now db, (∃ res, (raise_dispute u eid r now db).res = .ok res) →
      ∃ ev, ev.event_type = .disputed ∧
        (raise_dispute u eid r now db).db.events = db.events ++ [ev] ∧
        (raise_dispute u eid r now db).commits =
          [⟨(raise_dispute u eid r now db).db.escrow, db.events⟩,
           (raise_dispute u eid r now db).db]) ∧
    (∀ env u eid r ux now db, (∃ res, (resolve_dispute env u eid r ux now db).res = .ok res) →
      ∃ ev, ev.event_type = .resolved ∧
        (resolve_dispute env u eid r ux now db).db.events = db.events ++ [ev] ∧
        (resolve_dispute env u eid r ux now db).commits =
          [⟨(resolve_dispute env u eid r ux now db).db.escrow, db.events⟩,
           (resolve_dispute env u eid r ux now db).db]) :=
  ⟨fund_escrow_success_shape, confirm_delivery_success_shape,
   raise_dispute_success_shape, resolve_dispute_success_shape⟩

/-- Witness for the amended C5: each of the four transition endpoints, run
successfully on a concrete store, appends its one event in the second of
two commits. -/
theorem transition_appends_one_event_in_second_commit_witness :
    (∃ ev, ev.event_type = EscrowEventType.funded ∧
      (fund_escrow egVerifyEnv egBuyer egFundReq 7 egAwaitingDb).db.events =
        egAwaitingDb.events ++ [ev] ∧
      (fund_escrow egVerifyEnv egBuyer egFundReq 7 egAwaitingDb).commits =
        [⟨(fund_escrow egVerifyEnv egBuyer egFundReq 7 egAwaitingDb).db.escrow,
          egAwaitingDb.events⟩,
         (fund_escrow egVerifyEnv egBuyer egFundReq 7 egAwaitingDb).db]) ∧
    (∃ ev, ev.event_type = EscrowEventType.deliveryConfirmed ∧
      (confirm_delivery egEnv egSeller 1 { escrow_id := 1 } 5 egFundedDb).db.events =
        egFundedDb.events ++ [ev] ∧
      (confirm_delivery egEnv egSeller 1 { escrow_id := 1 } 5 egFundedDb).commits =
        [⟨(confirm_delivery egEnv egSeller 1 { escrow_id := 1 } 5 egFundedDb).db.escrow,
          egFundedDb.events⟩,
         (confirm_delivery egEnv egSeller 1 { escrow_id := 1 } 5 egFundedDb).db]) ∧
    (∃ ev, ev.event_type = EscrowEventType.disputed ∧
      (raise_dispute egBuyer 1 { escrow_id := 1, reason := "item not shipped" } 6
          egFundedDb).db.events = egFundedDb.events ++ [ev] ∧
      (raise_dispute egBuyer 1 { escrow_id := 1, reason := "item not shipped" } 6
          egFundedDb).commits =
        [⟨(raise_dispute egBuyer 1 { escrow_id := 1, reason := "item not shipped" } 6
            egFundedDb).db.escrow, egFundedDb.events⟩,
         (raise_dispute egBuyer 1 { escrow_id := 1, reason := "item not shipped" } 6
            egFundedDb).db]) ∧
    (∃ ev, ev.event_type = EscrowEventType.resolved ∧
      (resolve_dispute egEnv egAdmin 1
          { escrow_id := 1, outcome := "refund", resolution_notes := "refund the buyer" }
          (fun _ => true) 8 egDisputedDb).db.events = egDisputedDb.events ++ [ev] ∧
      (resolve_dispute egEnv egAdmin 1
          { escrow_id := 1, outcome := "refund", resolution_notes := "refund the buyer" }
          (fun _ => true) 8 egDisputedDb).commits =
        [⟨(resolve_dispute egEnv egAdmin 1
            { escrow_id := 1, outcome := "refund", resolution_notes := "refund the buyer" }
            (fun _ => true) 8 egDisputedDb).db.escrow, egDisputedDb.events⟩,
         (resolve_dispute egEnv egAdmin 1
            { escrow_id := 1, outcome := "refund", resolution_notes := "refund the buyer" }
            (fun _ => true) 8 egDisputedDb).db]) :=
  ⟨transition_appends_one_event_in_second_commit.1 egVerifyEnv egBuyer egFundReq 7
      egAwaitingDb ⟨_, rfl⟩,
   transition_appends_one_event_in_second_commit.2.1 egEnv egSeller 1 { escrow_id := 1 }
      5 egFundedDb ⟨_, rfl⟩,
   transition_appends_one_event_in_second_commit.2.2.1 egBuyer 1
      { escrow_id := 1, reason := "item not shipped" } 6 egFundedDb ⟨_, rfl⟩,
   transition_appends_one_event_in_second_commit.2.2.2 egEnv egAdmin 1
      { escrow_id := 1, outcome := "refund", resolution_notes := "refund the buyer" }
      (fun _ => true) 8 egDisputedDb ⟨_, rfl⟩⟩

/-- Claim C6 counterexample: a fund_escrow request supplying both a
transaction hash and the custodial flag passes schema validation and
succeeds (no admin account is configured here, so the tx-hash branch runs
and verification passes); it is not rejected for supplying both, so
fund_escrow does not require exactly one of the two. -/
theorem fund_escrow_accepts_both :
    EscrowFundReq.validate egBothReq = .ok egBothReq ∧
    egBothReq.tx_hash.isSome = true ∧ egBothReq.use_custodial = true ∧
    (∃ r, (fund_escrow egVerifyEnv egBuyer egBothReq 7 egAwaitingDb).res = .ok r) :=
  ⟨rfl, rfl, rfl, _, rfl⟩

/-- Claim C6 (amended): fund_escrow succeeds exactly when the escrow is
found, the caller has access and is the buyer, the state is AWAITING_FUND,
the custodial branch is not taken (it is taken whenever use_custodial is
set and an admin account is configured — taking precedence over any
supplied tx_hash — and then always fails, because its metadata
serialization raises), a transaction hash is supplied, and verification
accepts it; so it fails when neither input is provided, on a wrong state,
on a non-buyer caller and on failed verification or custodial submission,
but a request supplying both inputs is not rejected as such. -/
theorem fund_escrow_success_characterization (env : Web3Env) (u : User)
    (req : EscrowFundReq) (now : Nat) (db : Db) :
    (∃ r, (fund_escrow env u req now db).res = .ok r) ↔
    (db.escrow.id = req.escrow_id ∧ check_escrow_access db.escrow u = true ∧
     db.escrow.state = .awaitingFund ∧ db.escrow.buyer_id = u.id ∧
     ¬ (req.use_custodial = true ∧ env.admin_account = true) ∧
     ∃ h, req.tx_hash = some h ∧
       (verify_funding_tx env h db.escrow.amount_wei env.contract_address).accepted) := by
  simp only [fund_escrow]
  repeat' split
  all_goals simp_all [VerifyOut.accepted]

/-- Claim C7, code behavior at the failing input: a resolve_dispute request
with outcome partial and no payout_amount supplied passes schema validation
— pydantic does not run validate_payout_amount on a field that was never
supplied, since the validator lacks always=True — and the router then
resolves the dispute: the call succeeds, the escrow is committed COMPLETE,
and the resolved event records a settlement amount of 0, instead of the
request being rejected as a validation error as the claim (and the
validator error message) intend. -/
theorem partial_without_amount_not_rejected :
    EscrowResolveDisputeReq.validate egPartialReq = .ok egPartialReq ∧
    (∃ r, (resolve_dispute egEnv egAdmin 1 egPartialReq (fun _ => true) 9
        egDisputedDb).res = .ok r) ∧
    (resolve_dispute egEnv egAdmin 1 egPartialReq (fun _ => true) 9
        egDisputedDb).db.escrow.state = .complete ∧
    ∃ ev, (resolve_dispute egEnv egAdmin 1 egPartialReq (fun _ => true) 9
        egDisputedDb).db.events = [ev] ∧
      ("amount_wei", PVal.int 0) ∈ ev.payload :=
  ⟨rfl, ⟨_, rfl⟩, rfl, _, rfl, by decide⟩

/-- Claim C8: after every successful fund_escrow call the escrow row has
confirmations = 3 and is_confirmed = true, and the response reports the
same constants — these values are hard-coded, independent of the actual
on-chain confirmation depth — and the Event Reconciler Funded handler sets
the same constants whenever it performs the AWAITING_FUND to FUNDED
transition. -/
theorem funded_confirmations_constant :
    (∀ env u r now db, (∃ res, (fund_escrow env u r now db).res = .ok res) →
      (fund_escrow env u r now db).db.escrow.confirmations = 3 ∧
      (fund_escrow env u r now db).db.escrow.is_confirmed = true ∧
      (fund_escrow env u r now db).res.map
        (fun res => (res.confirmations, res.is_confirmed)) = .ok (3, true)) ∧
    (∀ db ev n esc, find_escrow_by_trade_id db ev.args.tradeId = some esc →
      db.escrow.state = .awaitingFund →
      (handle_funded db ev n).escrow.confirmations = 3 ∧
      (handle_funded db ev n).escrow.is_confirmed = true) := by
  constructor
  · intro env u r now db
    simp only [fund_escrow]
    repeat' split
    all_goals first
      | (intro h; exact ⟨rfl, rfl, rfl⟩)
      | simp
  · intro db ev n esc hfind hstate
    obtain rfl := find_escrow_some hfind
    unfold handle_funded
    simp [hfind, hstate]

/-- Witness for C8: the concrete successful fund_escrow run stores and
reports confirmations 3, and the Funded handler run sets the same. -/
theorem funded_confirmations_constant_witness :
    ((fund_escrow egVerifyEnv egBuyer egFundReq 7 egAwaitingDb).db.escrow.confirmations = 3 ∧
     (fund_escrow egVerifyEnv egBuyer egFundReq 7 egAwaitingDb).db.escrow.is_confirmed = true ∧
     (fund_escrow egVerifyEnv egBuyer egFundReq 7 egAwaitingDb).res.map
       (fun res => (res.confirmations, res.is_confirmed)) = .ok (3, true)) ∧
    ((handle_funded egAwaitingDb egFundedEvent 5).escrow.confirmations = 3 ∧
     (handle_funded egAwaitingDb egFundedEvent 5).escrow.is_confirmed = true) :=
  ⟨funded_confirmations_constant.1 egVerifyEnv egBuyer egFundReq 7 egAwaitingDb
      ⟨egFundOkRes, rfl⟩,
   funded_confirmations_constant.2 egAwaitingDb egFundedEvent 5 egAwaitingDb.escrow
      rfl rfl⟩

/-- Claim C9: schema validation accepts an escrow-creation request exactly
within the amount bounds — it rejects any amount exceeding 1000 * 10^18
wei with the maximum-limit error, together with the positivity check — and
the created escrow stores the requested amount, so every created escrow
whose request passed validation satisfies 0 < amount_wei ≤ 1000 * 10^18. -/
theorem create_amount_bounds :
    (∀ r r2, EscrowCreateReq.validate r = .ok r2 →
      0 < r.expected_amount_wei ∧ r.expected_amount_wei ≤ 1000 * 10 ^ 18) ∧
    (∀ r : EscrowCreateReq, 1000 * 10 ^ 18 < r.expected_amount_wei →
      EscrowCreateReq.validate r = .error "Amount exceeds maximum limit") ∧
    (∀ env u req c ux ex nid now d, (create_escrow env u req c ux ex nid now).db = some d →
      d.escrow.amount_wei = req.expected_amount_wei) := by
  have hpow : (1000 * 10 ^ 18 : Int) = 1000000000000000000000 := by norm_num
  refine ⟨?_, ?_, ?_⟩
  · intro r r2 h
    unfold EscrowCreateReq.validate at h
    split at h
    · exact absurd h (by simp)
    split at h
    · exact absurd h (by simp)
    · omega
  · intro r h
    unfold EscrowCreateReq.validate
    rw [hpow] at h
    rw [if_neg (by omega), if_pos (by rw [hpow]; omega)]
  · intro env u req c ux ex nid now d h
    unfold create_escrow at h
    repeat' split at h
    all_goals simp_all
    all_goals subst h
    all_goals rfl

/-- Witness for C9: the 100-wei request is inside the bounds and the
one-wei-over request is rejected with the maximum-limit error. -/
theorem create_amount_bounds_witness :
    (0 < egCreateReq.expected_amount_wei ∧
      egCreateReq.expected_amount_wei ≤ 1000 * 10 ^ 18) ∧
    EscrowCreateReq.validate egTooBigReq = .error "Amount exceeds maximum limit" :=
  ⟨create_amount_bounds.1 egCreateReq egCreateReq rfl,
   create_amount_bounds.2.1 egTooBigReq (by norm_num [egTooBigReq])⟩

/-- Claim C10: every escrow created via create_escrow gets a non-null
timeout_at of exactly 30 days (30 * 24 * 60 * 60 seconds) after the
creation instant; the EscrowCreate request schema carries no field that
controls this value. -/
theorem create_escrow_timeout_thirty_days (env : Web3Env) (u : User)
    (req : EscrowCreateReq) (c : Option ContractRec) (ux : Nat → Bool) (ex : Bool)
    (nid now : Nat) (d : Db) (h : (create_escrow env u req c ux ex nid now).db = some d) :
    d.escrow.timeout_at = some (now + 30 * 24 * 60 * 60) := by
  unfold create_escrow at h
  repeat' split at h
  all_goals simp_all
  all_goals subst h
  all_goals rfl

/-- Witness for C10: the concrete create_escrow run sets timeout_at to the
creation instant plus 30 days. -/
theorem create_escrow_timeout_thirty_days_witness :
    egCreatedDb.escrow.timeout_at = some (0 + 30 * 24 * 60 * 60) :=
  create_escrow_timeout_thirty_days egEnv egBuyer egCreateReq (some ⟨1, 1, 2⟩)
    (fun _ => true) false 1 0 egCreatedDb (by decide)

end EscrowEngine
